import Mathlib

/-!
Verification of the GinGo CRUD server (src/unnamed/part_000, src/main.go).

The server keeps two in-memory slices, `users` and `posts`, mutated by
HTTP handlers. Each handler is embedded as a pure function from the
current store (a `List`) and the decoded request body to the new store
and the JSON response. Go `int` identifiers are embedded as `Int`
(the program only ever assigns `len(collection)+1`, far from any
overflow), `time.Time` creation stamps as an abstract `Nat` supplied by
the caller standing for `time.Now()`, and `fmt.Sprintf "%d" id` as
`toString id`.
-/

namespace GinGo

/-- User model (struct `User` in part_000): ID, Username, Email,
Password, Created. -/
structure User where
  id : Int
  username : String
  email : String
  password : String
  created : Nat
deriving Repr, DecidableEq

/-- Post model (struct `Post` in part_000): ID, Title, Content, UserID,
Created. -/
structure Post where
  id : Int
  title : String
  content : String
  userID : Int
  created : Nat
deriving Repr, DecidableEq

/-- The JSON payload of a response: a record list, a single record, or a
one-key object such as `gin.H` with an `error`, `message` or `status`
key (the constructor carries the key and the value). -/
inductive ResponseBody where
  | users : List User → ResponseBody
  | user : User → ResponseBody
  | posts : List Post → ResponseBody
  | post : Post → ResponseBody
  | msg : String → String → ResponseBody
deriving Repr, DecidableEq

/-- An HTTP response: status code plus JSON body. -/
structure Response where
  status : Nat
  body : ResponseBody
deriving Repr, DecidableEq

/-- Dummy user for authentication simulation (`dummyUser` in part_000).
Its creation stamp is `time.Now()` at process start; it is never
inspected, so it is embedded as 0. -/
def dummyUser : User :=
  { id := 1, username := "admin", email := "admin@example.com",
    password := "password123", created := 0 }

/-- `userExists` in part_000: linear scan of the users store for a
matching username. -/
def userExists (users : List User) (username : String) : Bool :=
  users.any (fun user => user.username == username)

/-- `validateUserInput` in part_000: all three text fields non-empty. -/
def validateUserInput (user : User) : Bool :=
  user.username != "" && user.email != "" && user.password != ""

/-- `validatePostInput` in part_000: title and content non-empty.
Defined in the source but never called from any handler. -/
def validatePostInput (post : Post) : Bool :=
  post.title != "" && post.content != ""

/-- `getUsers` in part_000: 404 with a message on an empty store,
otherwise 200 with the whole list. The store is not mutated, so only
the response is returned. -/
def getUsers (users : List User) : Response :=
  if users.length == 0 then
    { status := 404, body := .msg "message" "No users found" }
  else
    { status := 200, body := .users users }

/-- `createUser` in part_000, after a successful `BindJSON`: reject on
failed validation (400), then on duplicate username (409), otherwise
overwrite the decoded record's ID with `len(users)+1` and its Created
stamp with `time.Now()` (the `now` argument) and append. -/
def createUser (users : List User) (newUser : User) (now : Nat) :
    List User × Response :=
  if !(validateUserInput newUser) then
    (users, { status := 400, body := .msg "error" "Invalid user input" })
  else if userExists users newUser.username then
    (users, { status := 409, body := .msg "error" "User already exists" })
  else
    let added : User :=
      { newUser with id := Int.ofNat (users.length + 1), created := now }
    (users ++ [added], { status := 201, body := .user added })

/-- `updateUser` in part_000, after a successful `BindJSON`: linear scan
for the first record whose formatted ID equals the path parameter;
overwrite its username, email and password in place and answer 200 with
the updated record; 404 when no record matches. -/
def updateUser (users : List User) (id : String) (body : User) :
    List User × Response :=
  match users with
  | [] => ([], { status := 404, body := .msg "message" "User not found" })
  | user :: rest =>
    if toString user.id == id then
      let updated : User :=
        { user with username := body.username, email := body.email,
                    password := body.password }
      (updated :: rest, { status := 200, body := .user updated })
    else
      let r := updateUser rest id body
      (user :: r.1, r.2)

/-- `deleteUser` in part_000: linear scan for the first record whose
formatted ID equals the path parameter; splice it out
(`append(users[:i], users[i+1:]...)`) and answer 200; 404 when no
record matches. -/
def deleteUser (users : List User) (id : String) :
    List User × Response :=
  match users with
  | [] => ([], { status := 404, body := .msg "message" "User not found" })
  | user :: rest =>
    if toString user.id == id then
      (rest, { status := 200, body := .msg "message" "User deleted" })
    else
      let r := deleteUser rest id
      (user :: r.1, r.2)

/-- `getPosts` in part_000: 404 with a message on an empty store,
otherwise 200 with the whole list. -/
def getPosts (posts : List Post) : Response :=
  if posts.length == 0 then
    { status := 404, body := .msg "message" "No posts found" }
  else
    { status := 200, body := .posts posts }

/-- `createPost` in part_000, after a successful `BindJSON`: no
validation and no duplicate check — unconditionally overwrite the
decoded record's ID with `len(posts)+1` and its Created stamp with
`time.Now()` and append, answering 201. -/
def createPost (posts : List Post) (newPost : Post) (now : Nat) :
    List Post × Response :=
  let added : Post :=
    { newPost with id := Int.ofNat (posts.length + 1), created := now }
  (posts ++ [added], { status := 201, body := .post added })

/-- `updatePost` in part_000, after a successful `BindJSON`: linear scan
for the first record whose formatted ID equals the path parameter;
overwrite its title and content in place and answer 200 with the
updated record; 404 when no record matches. -/
def updatePost (posts : List Post) (id : String) (body : Post) :
    List Post × Response :=
  match posts with
  | [] => ([], { status := 404, body := .msg "message" "Post not found" })
  | post :: rest =>
    if toString post.id == id then
      let updated : Post :=
        { post with title := body.title, content := body.content }
      (updated :: rest, { status := 200, body := .post updated })
    else
      let r := updatePost rest id body
      (post :: r.1, r.2)

/-- `deletePost` in part_000: linear scan for the first record whose
formatted ID equals the path parameter; splice it out and answer 200;
404 when no record matches. -/
def deletePost (posts : List Post) (id : String) :
    List Post × Response :=
  match posts with
  | [] => ([], { status := 404, body := .msg "message" "Post not found" })
  | post :: rest =>
    if toString post.id == id then
      (rest, { status := 200, body := .msg "message" "Post deleted" })
    else
      let r := deletePost rest id
      (post :: r.1, r.2)

/-- The credential check of `AuthMiddleware` in part_000: `none` stands
for `BasicAuth()` returning `ok = false` (no or malformed basic-auth
header); otherwise the username and password must equal the dummy
user's. -/
def basicAuthOK (cred : Option (String × String)) : Bool :=
  match cred with
  | none => false
  | some (username, password) =>
    username == dummyUser.username && password == dummyUser.password

/-- A request to one of the four post routes of `hew` in part_000, with
its decoded body where one exists. -/
inductive PostRequest where
  | list : PostRequest
  | create : Post → Nat → PostRequest
  | update : String → Post → PostRequest
  | delete : String → PostRequest
deriving Repr, DecidableEq

/-- Dispatch of an authenticated post-route request to its handler, as
registered on the `auth` group in `hew`. -/
def dispatchPost (posts : List Post) : PostRequest → List Post × Response
  | .list => (posts, getPosts posts)
  | .create body now => createPost posts body now
  | .update id body => updatePost posts id body
  | .delete id => deletePost posts id

/-- A post-route request as seen from outside: `AuthMiddleware` runs
first (the group middleware in `hew`); on a failed credential check it
answers 401 and aborts, so the handler never runs and the store is
untouched; otherwise `c.Next()` reaches the handler. -/
def handlePostRoute (cred : Option (String × String)) (posts : List Post)
    (req : PostRequest) : List Post × Response :=
  if basicAuthOK cred then
    dispatchPost posts req
  else
    (posts, { status := 401, body := .msg "status" "unauthorized" })

end GinGo

namespace GinGo

/-- C1: identifiers are not kept unique after deletion. Create two users
(they get identifiers 1 and 2), delete the first, then create a third:
`createUser` assigns it `len(users) + 1 = 2`, so the store ends with two
distinct records (usernames "bob" and "carol") sharing identifier 2. -/
theorem c1_delete_then_create_duplicates_id :
    ((createUser
        ((deleteUser
            ((createUser
                ((createUser [] ⟨0, "alice", "a@x.com", "pw", 0⟩ 10).1)
                ⟨0, "bob", "b@x.com", "pw", 0⟩ 11).1)
            "1").1)
        ⟨0, "carol", "c@x.com", "pw", 0⟩ 12).1).map User.id = [2, 2] ∧
    ((createUser
        ((deleteUser
            ((createUser
                ((createUser [] ⟨0, "alice", "a@x.com", "pw", 0⟩ 10).1)
                ⟨0, "bob", "b@x.com", "pw", 0⟩ 11).1)
            "1").1)
        ⟨0, "carol", "c@x.com", "pw", 0⟩ 12).1).map User.username =
      ["bob", "carol"] :=
  ⟨rfl, rfl⟩

/-- C2 as stated is false: a well-formed (decodable) create-user request
whose username matches an existing user but whose email is empty is
rejected by the validation check, which runs first, so the response is
400, not 409 (the store is still unchanged). -/
theorem c2_as_stated_counterexample :
    let store : List User := [⟨1, "bob", "b@x.com", "pw", 0⟩]
    let body : User := ⟨0, "bob", "", "pw2", 0⟩
    userExists store body.username = true ∧
    (createUser store body 5).2.status = 400 ∧
    ¬ (createUser store body 5).2.status = 409 := by
  decide

/-- C2 (amended): for every store and every create-user request that
passes input validation (username, email and password all non-empty) and
whose username equals the username of some user already in the store,
`createUser` answers 409 with an error message and leaves the users
store exactly as it was. -/
theorem c2_duplicate_username_conflict (users : List User) (body : User)
    (now : Nat) (hval : validateUserInput body = true)
    (hdup : userExists users body.username = true) :
    createUser users body now =
      (users, ⟨409, .msg "error" "User already exists"⟩) := by
  simp [createUser, hval, hdup]

/-- C2 witness: a concrete duplicate-username create against a one-user
store answers 409 and returns the store unchanged. -/
theorem c2_duplicate_username_conflict_witness :
    createUser [⟨1, "bob", "b@x.com", "pw", 0⟩] ⟨0, "bob", "c@x.com", "pw2", 0⟩ 5 =
      ([⟨1, "bob", "b@x.com", "pw", 0⟩],
       ⟨409, .msg "error" "User already exists"⟩) :=
  c2_duplicate_username_conflict [⟨1, "bob", "b@x.com", "pw", 0⟩]
    ⟨0, "bob", "c@x.com", "pw2", 0⟩ 5 (by decide) (by decide)

/-- C3: for every store and every well-formed create-user request with
at least one of username, email or password empty, `createUser` answers
400 and the users store is unchanged (no record appended). -/
theorem c3_empty_field_bad_request (users : List User) (body : User)
    (now : Nat)
    (h : body.username = "" ∨ body.email = "" ∨ body.password = "") :
    createUser users body now =
      (users, ⟨400, .msg "error" "Invalid user input"⟩) := by
  have hval : validateUserInput body = false := by
    unfold validateUserInput
    rcases h with h | h | h <;> simp [h]
  simp [createUser, hval]

/-- C3 witness: creating a user with an empty password against a
one-user store answers 400 and leaves the store unchanged. -/
theorem c3_empty_field_bad_request_witness :
    createUser [⟨1, "bob", "b@x.com", "pw", 0⟩] ⟨0, "carol", "c@x.com", "", 0⟩ 5 =
      ([⟨1, "bob", "b@x.com", "pw", 0⟩],
       ⟨400, .msg "error" "Invalid user input"⟩) :=
  c3_empty_field_bad_request [⟨1, "bob", "b@x.com", "pw", 0⟩]
    ⟨0, "carol", "c@x.com", "", 0⟩ 5 (Or.inr (Or.inr rfl))

/-- C4: the post-creation path performs no validation and no duplicate
check: for every store and every well-formed create-post request — the
body fully unconstrained, so in particular one with empty title and
content — `createPost` answers 201 and appends the post with a fresh
identifier and timestamp. (`validatePostInput` does not occur in the
definition of `createPost`, mirroring the source, where it is never
invoked on this path.) -/
theorem c4_createPost_never_validates (posts : List Post) (body : Post)
    (now : Nat) :
    createPost posts body now =
      (posts ++ [{ body with id := Int.ofNat (posts.length + 1), created := now }],
       ⟨201, .post { body with id := Int.ofNat (posts.length + 1), created := now }⟩) :=
  rfl

/-- C5: a request to any post route whose basic-auth credentials are
absent or differ from the hardcoded pair ("admin", "password123") is
answered 401 by the middleware and aborted before any handler runs, so
the posts store is unchanged whatever the request was. -/
theorem c5_auth_failure_aborts (cred : Option (String × String))
    (posts : List Post) (req : PostRequest)
    (h : cred = none ∨
      ∃ u p, cred = some (u, p) ∧ (u ≠ "admin" ∨ p ≠ "password123")) :
    handlePostRoute cred posts req =
      (posts, ⟨401, .msg "status" "unauthorized"⟩) := by
  have hauth : basicAuthOK cred = false := by
    rcases h with h | ⟨u, p, h, hne⟩
    · simp [basicAuthOK, h]
    · subst h
      rcases hne with hne | hne <;> simp [basicAuthOK, dummyUser, hne]
  simp [handlePostRoute, hauth]

/-- C5 witness: a delete-post request with a wrong password against a
one-post store answers 401 and leaves the store unchanged. -/
theorem c5_auth_failure_aborts_witness :
    handlePostRoute (some ("admin", "wrong")) [⟨1, "t", "c", 1, 0⟩] (.delete "1") =
      ([⟨1, "t", "c", 1, 0⟩], ⟨401, .msg "status" "unauthorized"⟩) :=
  c5_auth_failure_aborts (some ("admin", "wrong")) [⟨1, "t", "c", 1, 0⟩]
    (.delete "1") (Or.inr ⟨"admin", "wrong", rfl, Or.inr (by decide)⟩)

/-- C6: when the store is `pre ++ u :: post` with `u` the first record
whose formatted identifier equals the path parameter, `updateUser`
overwrites exactly that record's username, email and password from the
body, keeps its identifier and creation timestamp, leaves every other
record in place unchanged, and answers 200 with the updated record. -/
theorem c6_updateUser_frame (pre post : List User) (u body : User)
    (id : String)
    (hpre : ∀ v ∈ pre, (toString v.id == id) = false)
    (hu : (toString u.id == id) = true) :
    updateUser (pre ++ u :: post) id body =
      (pre ++ { u with username := body.username, email := body.email,
                       password := body.password } :: post,
       ⟨200, .user { u with username := body.username, email := body.email,
                            password := body.password }⟩) := by
  induction pre with
  | nil => simp [updateUser, hu]
  | cons v vs ih =>
    have hv : (toString v.id == id) = false := hpre v (by simp)
    have ih' := ih (fun w hw => hpre w (by simp [hw]))
    simp [updateUser, hv, ih']

/-- C6 witness: updating identifier "2" in a two-user store rewrites the
second record's text fields, keeps its identifier and timestamp, and
leaves the first record untouched. -/
theorem c6_updateUser_frame_witness :
    updateUser [⟨1, "alice", "a@x.com", "pw", 3⟩, ⟨2, "bob", "b@x.com", "pw", 7⟩]
        "2" ⟨0, "bobby", "bb@x.com", "npw", 9⟩ =
      ([⟨1, "alice", "a@x.com", "pw", 3⟩, ⟨2, "bobby", "bb@x.com", "npw", 7⟩],
       ⟨200, .user ⟨2, "bobby", "bb@x.com", "npw", 7⟩⟩) :=
  c6_updateUser_frame [⟨1, "alice", "a@x.com", "pw", 3⟩]
    [] ⟨2, "bob", "b@x.com", "pw", 7⟩ ⟨0, "bobby", "bb@x.com", "npw", 9⟩
    "2" (by decide) (by decide)

/-- C7: creating user "bob" with email "b@x.com" and password "pw"
against an empty store answers 201 with the created record, whose
identifier is 1 (current count + 1) and whose creation timestamp is the
server-side `now`, whatever identifier or timestamp the request body
carried. -/
theorem c7_create_on_empty_store (i : Int) (t now : Nat) :
    createUser [] ⟨i, "bob", "b@x.com", "pw", t⟩ now =
      ([⟨1, "bob", "b@x.com", "pw", now⟩],
       ⟨201, .user ⟨1, "bob", "b@x.com", "pw", now⟩⟩) :=
  rfl

/-- C8: listing users on the empty users store answers 404 with a JSON
message — not 200 with an empty array — and listing posts on the empty
posts store does the same. -/
theorem c8_empty_list_not_found :
    getUsers [] = ⟨404, .msg "message" "No users found"⟩ ∧
    getPosts [] = ⟨404, .msg "message" "No posts found"⟩ :=
  ⟨rfl, rfl⟩

/-- C9: when the store is `pre ++ u :: post` with `u` the first record
whose formatted identifier equals the path parameter, `deleteUser`
removes exactly that occurrence and answers 200, and listing the
resulting store yields the remaining users without it — or the
empty-store 404 response when no user remains. -/
theorem c9_delete_then_list_excludes (pre post : List User) (u : User)
    (id : String)
    (hpre : ∀ v ∈ pre, (toString v.id == id) = false)
    (hu : (toString u.id == id) = true) :
    deleteUser (pre ++ u :: post) id =
      (pre ++ post, ⟨200, .msg "message" "User deleted"⟩) ∧
    getUsers ((deleteUser (pre ++ u :: post) id).1) =
      (if pre ++ post = [] then ⟨404, .msg "message" "No users found"⟩
       else ⟨200, .users (pre ++ post)⟩) := by
  have hdel : deleteUser (pre ++ u :: post) id =
      (pre ++ post, ⟨200, .msg "message" "User deleted"⟩) := by
    induction pre with
    | nil => simp [deleteUser, hu]
    | cons v vs ih =>
      have hv : (toString v.id == id) = false := hpre v (by simp)
      have ih' := ih (fun w hw => hpre w (by simp [hw]))
      simp [deleteUser, hv, ih']
  refine ⟨hdel, ?_⟩
  rw [hdel]
  by_cases hempty : pre ++ post = []
  · simp [getUsers, hempty]
  · have hne : (pre ++ post).length ≠ 0 :=
      fun h => hempty (List.length_eq_zero.mp h)
    have hlen : ((pre ++ post).length == 0) = false := by simpa using hne
    simp only [getUsers]
    rw [hlen]
    simp only [Bool.false_eq_true, if_false]
    rw [if_neg hempty]

/-- C9 witness: deleting identifier "1" from a two-user store, then
listing, answers 200 with only the other user. -/
theorem c9_delete_then_list_excludes_witness :
    deleteUser [⟨1, "alice", "a@x.com", "pw", 3⟩, ⟨2, "bob", "b@x.com", "pw", 7⟩] "1" =
      ([⟨2, "bob", "b@x.com", "pw", 7⟩], ⟨200, .msg "message" "User deleted"⟩) ∧
    getUsers ((deleteUser [⟨1, "alice", "a@x.com", "pw", 3⟩, ⟨2, "bob", "b@x.com", "pw", 7⟩] "1").1) =
      (if ([] : List User) ++ [⟨2, "bob", "b@x.com", "pw", 7⟩] = [] then
        ⟨404, .msg "message" "No users found"⟩
       else ⟨200, .users (([] : List User) ++ [⟨2, "bob", "b@x.com", "pw", 7⟩])⟩) :=
  c9_delete_then_list_excludes [] [⟨2, "bob", "b@x.com", "pw", 7⟩]
    ⟨1, "alice", "a@x.com", "pw", 3⟩ "1" (by decide) (by decide)

/-- C10: when the store is `pre ++ p :: post` with `p` the first record
whose formatted identifier equals the path parameter, `updatePost`
overwrites only that record's title and content: its identifier, its
owning user identifier and its creation timestamp are untouched, every
other record is unchanged, and the response is 200 with the updated
record — so ownership cannot be reassigned through update. -/
theorem c10_updatePost_frame (pre post : List Post) (p body : Post)
    (id : String)
    (hpre : ∀ q ∈ pre, (toString q.id == id) = false)
    (hp : (toString p.id == id) = true) :
    updatePost (pre ++ p :: post) id body =
      (pre ++ { p with title := body.title, content := body.content } :: post,
       ⟨200, .post { p with title := body.title, content := body.content }⟩) := by
  induction pre with
  | nil => simp [updatePost, hp]
  | cons q qs ih =>
    have hq : (toString q.id == id) = false := hpre q (by simp)
    have ih' := ih (fun w hw => hpre w (by simp [hw]))
    simp [updatePost, hq, ih']

/-- C10 witness: updating post "2" with a body carrying a different
owning user identifier changes only title and content; the stored
post keeps its identifier, owner and timestamp. -/
theorem c10_updatePost_frame_witness :
    updatePost [⟨1, "t1", "c1", 4, 3⟩, ⟨2, "t2", "c2", 5, 7⟩] "2"
        ⟨0, "nt", "nc", 99, 9⟩ =
      ([⟨1, "t1", "c1", 4, 3⟩, ⟨2, "nt", "nc", 5, 7⟩],
       ⟨200, .post ⟨2, "nt", "nc", 5, 7⟩⟩) :=
  c10_updatePost_frame [⟨1, "t1", "c1", 4, 3⟩] [] ⟨2, "t2", "c2", 5, 7⟩
    ⟨0, "nt", "nc", 99, 9⟩ "2" (by decide) (by decide)

end GinGo
